import Mathlib

/-!
Verification of the cdvdGigaherz read-thread subsystem
(`src/plugins/cdvdGigaherz/src/ReadThread.cpp`).

The C++ is shallowly embedded: the direct-mapped sector cache becomes an
explicit function from slot indices to entries, the worker loop's prefetch
bookkeeping becomes a step function on an explicit state record, the external
media backend (`src->GetSectorCount`, `src->ReadSectors2048/2352`,
`src->DiscReady`) is abstracted into parameters, and byte buffers are modelled
as functions from byte offsets to byte values.  Machine integers are modelled
as `Nat`/`Int` (all the quantities involved stay well inside 32 bits in the
ranges the claims speak about; the one place the C++ masks a `u32`, the mask
`~15` is embedded as `&&& 0xFFFFFFF0`).
-/

/-- `#define CACHE_SIZE 12` — the slot-index bit width. -/
def CACHE_SIZE : Nat := 12

/-- `const s32 CacheSize = (1 << CACHE_SIZE)` — number of cache slots (4096). -/
def CacheSize : Nat := 1 <<< CACHE_SIZE

/-- The body of the `while (i >= 0)` loop of `cdvdSectorHash`: starting from
bit-position counter `i`, accumulator `t` and remaining address bits `lsn`,
repeatedly XOR in the low 12 bits of `lsn` (`t ^= lsn & m` with
`m = CacheSize - 1`), shift `lsn` right by 12 (`lsn >>= CACHE_SIZE`) and
decrement `i` by 12 (`i -= CACHE_SIZE`), while `i ≥ 0`. -/
def hashSteps (i : Int) (lsn t : Nat) : Nat :=
  if 0 ≤ i then
    hashSteps (i - CACHE_SIZE) (lsn >>> CACHE_SIZE) (t ^^^ (lsn &&& (CacheSize - 1)))
  else t
termination_by (i + CACHE_SIZE).toNat
decreasing_by simp [CACHE_SIZE]; omega

/-- `cdvdSectorHash(lsn, mode)`: fold the address into 12-bit chunks starting
with counter `i = 32`, XOR with the mode, and mask to the low 12 bits. -/
def cdvdSectorHash (lsn mode : Nat) : Nat :=
  (hashSteps 32 lsn 0 ^^^ mode) &&& (CacheSize - 1)

/-- One cache entry: `typedef struct { int lsn; int mode; char data[2352*16]; }
SectorInfo`.  The payload type is left abstract (`memcpy` of the whole
2352*16-byte payload is whole-value copy); `lsn`/`mode` are `Int` because
`cdvdCacheReset` stores the sentinel `-1`. -/
structure SectorInfo (α : Type) where
  lsn : Int
  mode : Int
  data : α
deriving Repr, DecidableEq

/-- `SectorInfo Cache[CacheSize]` — the cache array, as a function from slot
indices to entries (only indices below `CacheSize` are ever produced by
`cdvdSectorHash`). -/
def CdvdCache (α : Type) : Type := Nat → SectorInfo α

/-- `cdvdCacheUpdate(lsn, mode, data)`: overwrite slot `cdvdSectorHash lsn mode`
with the new payload and tag, unconditionally. -/
def cdvdCacheUpdate {α : Type} (c : CdvdCache α) (lsn mode : Nat) (data : α) :
    CdvdCache α :=
  fun e => if e = cdvdSectorHash lsn mode then ⟨lsn, mode, data⟩ else c e

/-- `cdvdCacheFetch(lsn, mode, data)`: on an exact `(lsn, mode)` tag match of
the hashed slot, return `(true, payload)`; otherwise `(false, out)` with the
caller's buffer `out` untouched. -/
def cdvdCacheFetch {α : Type} (c : CdvdCache α) (lsn mode : Nat) (out : α) :
    Bool × α :=
  let e := cdvdSectorHash lsn mode
  if (c e).lsn = lsn ∧ (c e).mode = mode then (true, (c e).data) else (false, out)

/-- `cdvdCacheReset()`: set every slot's tags to the sentinel `-1`. -/
def cdvdCacheReset {α : Type} (c : CdvdCache α) : CdvdCache α :=
  fun e => ⟨-1, -1, (c e).data⟩

/-- Modelled from the spec: the read-mode selector constants come from
`PS2Edefs.h`, which is not part of this tree.  The spec fixes their byte
semantics — mode "2048" = data only, "2328" = raw minus 24-byte header,
"2340" = raw minus 12-byte header, "2352" (the `switch` default) = full raw —
and only the constants' distinctness matters to the code below; the values
follow the PS2E plugin convention (2352 = 0, 2340 = 1, 2328 = 2, 2048 = 3). -/
def CDVD_MODE_2352 : Nat := 0

/-- Modelled from the spec: see `CDVD_MODE_2352`. -/
def CDVD_MODE_2340 : Nat := 1

/-- Modelled from the spec: see `CDVD_MODE_2352`. -/
def CDVD_MODE_2328 : Nat := 2

/-- Modelled from the spec: see `CDVD_MODE_2352`. -/
def CDVD_MODE_2048 : Nat := 3

/-- The byte offset computed by `cdvdGetSector(sector, mode)` into the
fulfilled block's buffer (`threadRequestInfo.data`), whose block address is
`lsn = threadRequestInfo.lsn`: `2048 * (sector - lsn)` for mode 2048,
otherwise `2352 * (sector - lsn)` plus 24 for mode 2328, plus 12 for
mode 2340, and plus nothing in the default (2352) case.  The arithmetic is
`s32`, hence `Int`. -/
def cdvdGetSectorOffset (lsn sector : Int) (mode : Nat) : Int :=
  if mode = CDVD_MODE_2048 then
    2048 * (sector - lsn)
  else
    let offset := 2352 * (sector - lsn)
    if mode = CDVD_MODE_2328 then offset + 24
    else if mode = CDVD_MODE_2340 then offset + 12
    else offset

/-- `sector &= ~15` on a `u32` (and `first & (~15)` on a nonnegative `s32`):
clear the low four bits, aligning down to the 16-sector block boundary. -/
def blockAlign (sector : Nat) : Nat := sector &&& 0xFFFFFFF0

/-- The consumer-side state touched by `cdvdRequestSector`: the cache and the
single pending-request slot `threadRequestInfo` / `threadRequestPending`. -/
structure ReqState (α : Type) where
  cache : CdvdCache α
  reqLsn : Int
  reqMode : Int
  reqData : α
  pending : Bool

/-- `cdvdRequestSector(sector, mode)` against backend sector count `cnt`:
reject with `-1` if `sector >= cnt`; otherwise align the sector down, store
address/mode into the pending slot, clear the pending flag, and try the cache.
On a hit the payload lands in the slot's buffer and the call returns 0 without
waking the worker; on a miss the pending flag is armed and the worker's
condition variable is notified (the returned `Bool`), again returning 0. -/
def cdvdRequestSector {α : Type} (cnt : Nat) (s : ReqState α) (sector mode : Nat) :
    Int × ReqState α × Bool :=
  if sector ≥ cnt then (-1, s, false)
  else
    let sector' := blockAlign sector
    let (hit, d) := cdvdCacheFetch s.cache sector' mode s.reqData
    if hit then (0, ⟨s.cache, sector', mode, d, false⟩, false)
    else (0, ⟨s.cache, sector', mode, d, true⟩, true)

/-- `cdvdRequestComplete()`: non-blocking poll of the pending flag. -/
def cdvdRequestComplete {α : Type} (s : ReqState α) : Bool := !s.pending

/-- Byte buffers (the 16*2352-byte scratch/payload arrays), as functions from
byte offsets to byte values. -/
def Buf : Type := Nat → Nat

/-- The `for (int tries = 0; tries < 4; ++tries) { if (read(...)) break; }`
retry loop, over an abstract per-attempt success predicate `ok`: starting at
attempt index `t` with `fuel` iterations left, return the number of attempts
performed and whether one succeeded. -/
def retryAux (ok : Nat → Bool) : Nat → Nat → Nat × Bool
  | 0, _ => (0, false)
  | fuel + 1, t =>
    if ok t then (1, true)
    else
      let r := retryAux ok fuel (t + 1)
      (r.1 + 1, r.2)

/-- The whole retry loop: at most 4 attempts, starting at attempt 0, stopping
at the first success. -/
def cdvdReadRetry (ok : Nat → Bool) : Nat × Bool := retryAux ok 4 0

/-- The blocking read performed by both the worker and the direct path:
retry up to four times; on success the buffer holds the backend's block
`blockData`, on total failure it keeps its previous contents `data0`
(the code proceeds with whatever is in the buffer).  Returns the attempt
count, the success flag and the resulting buffer contents. -/
def cdvdWorkerRead {α : Type} (ok : Nat → Bool) (blockData data0 : α) :
    Nat × Bool × α :=
  let r := cdvdReadRetry ok
  (r.1, r.2, if r.2 then blockData else data0)

/-- The source-byte offset of the `memcpy` that `cdvdDirectReadSector` performs
out of its scratch block buffer `data`, per mode: `2048*(first - sector)` for
mode 2048; otherwise `bfr = data + 2352*(first - sector)` and then the switch
copies from `bfr + 24` (mode 2328), `bfr + 12` (mode 2340), and `bfr + 12`
in the default (mode 2352) case — note the default branch's extra 12. -/
def drsSrcOffset (first mode : Nat) : Nat :=
  let sector := blockAlign first
  if mode = CDVD_MODE_2048 then 2048 * (first - sector)
  else
    let base := 2352 * (first - sector)
    if mode = CDVD_MODE_2328 then base + 24
    else if mode = CDVD_MODE_2340 then base + 12
    else base + 12

/-- The byte count of that `memcpy`, per mode. -/
def drsCopyLen (mode : Nat) : Nat :=
  if mode = CDVD_MODE_2048 then 2048
  else if mode = CDVD_MODE_2328 then 2328
  else if mode = CDVD_MODE_2340 then 2340
  else 2352

/-- Result of `cdvdDirectReadSector`: return status, cache afterwards, number
of backend read attempts performed, contents of the static scratch buffer
afterwards, and the caller's buffer afterwards. -/
structure DRSResult where
  status : Int
  cache : CdvdCache Buf
  attempts : Nat
  scratch : Buf
  out : Buf

/-- `cdvdDirectReadSector(first, mode, buffer)` against backend sector count
`cnt`, per-attempt read success `ok` and backend block contents `blockData`;
`data0` is the prior contents of the function's `static char data[16*2352]`
scratch buffer and `outBuf` the prior contents of the caller's buffer.
Rejects out-of-range addresses with `-1`; otherwise aligns down, consults the
cache, on a miss performs the bounded-retry read and updates the cache, and
finally copies `drsCopyLen mode` bytes starting at `drsSrcOffset first mode`
out of the scratch buffer into the caller's buffer, returning 0. -/
def cdvdDirectReadSector (cnt : Nat) (ok : Nat → Bool) (blockData : Buf)
    (cache : CdvdCache Buf) (data0 outBuf : Buf) (first mode : Nat) : DRSResult :=
  if first ≥ cnt then ⟨-1, cache, 0, data0, outBuf⟩
  else
    let sector := blockAlign first
    let f := cdvdCacheFetch cache sector mode data0
    let r :=
      if f.1 then (cache, 0, f.2)
      else
        let w := cdvdWorkerRead ok blockData data0
        (cdvdCacheUpdate cache sector mode w.2.2, w.1, w.2.2)
    let data := r.2.2
    ⟨0, r.1, r.2.1, data,
      fun i => if i < drsCopyLen mode then data (drsSrcOffset first mode + i) else outBuf i⟩

/-- `const s32 prefetch_max_blocks = 16`. -/
def prefetch_max_blocks : Nat := 16

/-- The worker's prefetch bookkeeping: `prefetch_last_lba`,
`prefetch_last_mode` and `prefetch_left`.  `prefetch_left` starts at 0, is set
to `prefetch_max_blocks` on fulfilment and only decremented under a
nonzero-guard, so it never goes negative and `Nat` is faithful. -/
structure PrefetchState where
  lastLba : Nat
  lastMode : Nat
  left : Nat
deriving Repr, DecidableEq

/-- Result of one pass of the body of `cdvdThread`'s main loop (in the
media-present case, after the condition-variable wait): the cache, the
thread-static `info` buffer contents, the prefetch state, which block (if any)
was read this pass, how many backend attempts that read made, and whether a
pending on-demand request was fulfilled (pending flag cleared and
`s_request_cv` notified). -/
structure ThreadStepResult where
  cache : CdvdCache Buf
  infoData : Buf
  state : PrefetchState
  target : Option (Nat × Nat)
  attempts : Nat
  fulfilled : Bool

/-- One pass of `cdvdThread`'s loop body, with the backend abstracted as a
per-attempt success predicate `ok` and per-(lsn, mode) block contents
`blockData` (the `count = min(16, sectorCount - lsn)` clamp only bounds how
many sectors the backend call fills in and is absorbed into `blockData`).
If a request `(lsn, mode)` is pending, read it, update the cache, publish the
block, clear the pending flag and reset the prefetch state to the just-served
address/mode with a full budget.  Otherwise, if prefetch budget remains, read
at `prefetch_last_lba`/`prefetch_last_mode`, update the cache, then advance
`prefetch_last_lba` by 16 and decrement `prefetch_left`.  Otherwise idle. -/
def cdvdThreadStep (ok : Nat → Bool) (blockData : Nat → Nat → Buf)
    (pending : Option (Nat × Nat)) (cache : CdvdCache Buf) (data0 : Buf)
    (s : PrefetchState) : ThreadStepResult :=
  match pending with
  | some (lsn, mode) =>
    let w := cdvdWorkerRead ok (blockData lsn mode) data0
    ⟨cdvdCacheUpdate cache lsn mode w.2.2, w.2.2, ⟨lsn, mode, prefetch_max_blocks⟩,
      some (lsn, mode), w.1, true⟩
  | none =>
    if s.left ≠ 0 then
      let w := cdvdWorkerRead ok (blockData s.lastLba s.lastMode) data0
      ⟨cdvdCacheUpdate cache s.lastLba s.lastMode w.2.2, w.2.2,
        ⟨s.lastLba + 16, s.lastMode, s.left - 1⟩, some (s.lastLba, s.lastMode), w.1, false⟩
    else ⟨cache, data0, s, none, 0, false⟩

/-- The addresses/modes targeted by `n` consecutive autonomous (no pending
request) passes of the worker loop, threading the cache and the static buffer
through. -/
def prefetchTargets (ok : Nat → Bool) (blockData : Nat → Nat → Buf) :
    Nat → CdvdCache Buf → Buf → PrefetchState → List (Nat × Nat)
  | 0, _, _, _ => []
  | n + 1, cache, data0, s =>
    let r := cdvdThreadStep ok blockData none cache data0 s
    match r.target with
    | some t => t :: prefetchTargets ok blockData n r.cache r.infoData r.state
    | none => []

/-- Modelled from the spec: disk-type and tray-status constants from the
absent `PS2Edefs.h` header; only their identities matter here ("no disc",
"detecting CD", "detecting single/double-layer DVD", tray open/closed). -/
def CDVD_TYPE_NODISC : Nat := 0

/-- Modelled from the spec: see `CDVD_TYPE_NODISC`. -/
def CDVD_TYPE_DETCTCD : Nat := 1

/-- Modelled from the spec: see `CDVD_TYPE_NODISC`. -/
def CDVD_TYPE_DETCTDVDS : Nat := 2

/-- Modelled from the spec: see `CDVD_TYPE_NODISC`. -/
def CDVD_TYPE_DETCTDVDD : Nat := 3

/-- Modelled from the spec: see `CDVD_TYPE_NODISC`. -/
def CDVD_TRAY_OPEN : Nat := 1

/-- Modelled from the spec: see `CDVD_TYPE_NODISC`. -/
def CDVD_TRAY_CLOSE : Nat := 0

/-- The disc-status globals mutated by the status monitor:
`disc_has_changed`, `curDiskType`, `curTrayStatus`. -/
structure DiscState where
  disc_has_changed : Bool
  curDiskType : Nat
  curTrayStatus : Nat
deriving Repr, DecidableEq

/-- `cdvdRefreshData()`, as far as it touches `DiscState`: classify the disk
type from the parsed TOC (`strack`, `etrack`) and `GetMediaType()`
(negative = CD, zero = single-layer DVD, positive = double-layer DVD), and
close the tray.  (It also reparses the TOC and resets the cache, which do not
touch `DiscState`.) -/
def cdvdRefreshData (strack etrack : Nat) (mediaType : Int) (s : DiscState) :
    DiscState :=
  let t :=
    if etrack = 0 ∨ strack > etrack then CDVD_TYPE_NODISC
    else if mediaType < 0 then CDVD_TYPE_DETCTCD
    else if mediaType = 0 then CDVD_TYPE_DETCTDVDS
    else CDVD_TYPE_DETCTDVDD
  ⟨s.disc_has_changed, t, CDVD_TRAY_CLOSE⟩

/-- Result of one `cdvdUpdateDiscStatus()` call: the new disc state, whether
the new-disc callback was invoked, whether `cdvdRefreshData` ran, and the
boolean return value (`!ready`). -/
structure DiscStatusResult where
  state : DiscState
  notified : Bool
  refreshed : Bool
  busy : Bool
deriving Repr, DecidableEq

/-- `cdvdUpdateDiscStatus()`, with `src->DiscReady()` abstracted as `ready` and
`cdvdRefreshData`'s inputs as `strack`/`etrack`/`mediaType`.  Not ready: on
the first such check (`!disc_has_changed`) set the changed flag, no-disc type,
open tray, and invoke the callback; otherwise do nothing.  Ready: if the
changed flag is set, set no-disc type and closed tray, clear the flag, refresh
the disc data and invoke the callback; otherwise do nothing. -/
def cdvdUpdateDiscStatus (strack etrack : Nat) (mediaType : Int) (ready : Bool)
    (s : DiscState) : DiscStatusResult :=
  if !ready then
    if !s.disc_has_changed then
      ⟨⟨true, CDVD_TYPE_NODISC, CDVD_TRAY_OPEN⟩, true, false, true⟩
    else ⟨s, false, false, true⟩
  else
    if s.disc_has_changed then
      ⟨cdvdRefreshData strack etrack mediaType
        ⟨false, CDVD_TYPE_NODISC, CDVD_TRAY_CLOSE⟩, true, true, false⟩
    else ⟨s, false, false, false⟩

/-- The number of new-disc callback invocations over a whole sequence of
`cdvdUpdateDiscStatus` polls with readiness readings `rs`. -/
def runDiscChecks (strack etrack : Nat) (mediaType : Int) :
    List Bool → DiscState → Nat
  | [], _ => 0
  | r :: rs, s =>
    let q := cdvdUpdateDiscStatus strack etrack mediaType r s
    (if q.notified then 1 else 0) + runDiscChecks strack etrack mediaType rs q.state

/-- The number of actual presence transitions in a sequence of readings,
relative to the monitor's flag: `disc_has_changed` records that the previous
check saw the media absent, so a check counts as a transition exactly when its
reading equals the flag (ready while flagged absent, or not ready while not
flagged). -/
def countTransitions : List Bool → Bool → Nat
  | [], _ => 0
  | r :: rs, flag => (if r == flag then 1 else 0) + countTransitions rs (!r)

/-- An all-invalid cache over `Nat` payloads (every tag at the `-1` sentinel),
as produced by `cdvdCacheReset`; used to instantiate theorems at concrete
states. -/
def emptyNatCache : CdvdCache Nat := fun _ => ⟨-1, -1, 0⟩

/-- An all-invalid cache over byte-buffer payloads. -/
def emptyBufCache : CdvdCache Buf := fun _ => ⟨-1, -1, fun _ => 0⟩

/-- The all-zero byte buffer. -/
def zeroBuf : Buf := fun _ => 0

/-- The byte buffer whose byte at index `i` is `i`, used to track which
scratch-buffer offsets a copy reads from. -/
def idxBuf : Buf := fun i => i

/-- A quiescent request-slot state over `Nat` payloads. -/
def reqState0 : ReqState Nat := ⟨emptyNatCache, -1, -1, 0, false⟩

/-- A backend whose reads fail on attempts 0–2 and succeed on attempt 3. -/
def failThriceBackend : Nat → Bool := fun t => t == 3

/-- A backend whose reads always fail. -/
def failingBackend : Nat → Bool := fun _ => false

/-- A backend whose reads always succeed. -/
def reliableBackend : Nat → Bool := fun _ => true

/-- A backend block-content assignment that is constant zero. -/
def zeroBlocks : Nat → Nat → Buf := fun _ _ => zeroBuf
/-- Unfolding lemma for `hashSteps` while the counter is still nonnegative. -/
theorem hashSteps_pos (i : Int) (lsn t : Nat) (h : 0 ≤ i) :
    hashSteps i lsn t =
      hashSteps (i - CACHE_SIZE) (lsn >>> CACHE_SIZE) (t ^^^ (lsn &&& (CacheSize - 1))) := by
  rw [hashSteps]
  simp [h]

/-- Unfolding lemma for `hashSteps` once the counter has gone negative. -/
theorem hashSteps_neg (i : Int) (lsn t : Nat) (h : ¬ 0 ≤ i) :
    hashSteps i lsn t = t := by
  rw [hashSteps]
  simp [h]

/-- Closed form of `cdvdSectorHash`: the counter `32, 20, 8, -4` drives exactly
three loop iterations, so the hash XORs the three 12-bit chunks of the
address (bits 0–11, 12–23, 24–31), XORs in the mode, and masks to 12 bits. -/
theorem cdvdSectorHash_eq (lsn mode : Nat) :
    cdvdSectorHash lsn mode =
      ((((lsn &&& 4095) ^^^ ((lsn >>> 12) &&& 4095)) ^^^ ((lsn >>> 24) &&& 4095)) ^^^ mode)
        &&& 4095 := by
  rw [cdvdSectorHash]
  rw [hashSteps_pos _ _ _ (by norm_num)]
  rw [hashSteps_pos _ _ _ (by norm_num [CACHE_SIZE])]
  rw [hashSteps_pos _ _ _ (by norm_num [CACHE_SIZE])]
  rw [hashSteps_neg _ _ _ (by norm_num [CACHE_SIZE])]
  have h24 : ∀ n : Nat, n >>> 12 >>> 12 = n >>> 24 := by
    intro n
    rw [Nat.shiftRight_add n 12 12]
  norm_num [CACHE_SIZE, CacheSize, h24, Nat.shiftLeft_eq]

/-- The hash always lands strictly below the slot count. -/
theorem cdvdSectorHash_lt (lsn mode : Nat) : cdvdSectorHash lsn mode < 4096 := by
  rw [cdvdSectorHash_eq]
  have h : ((((lsn &&& 4095) ^^^ ((lsn >>> 12) &&& 4095)) ^^^ ((lsn >>> 24) &&& 4095)) ^^^ mode)
      &&& 4095 ≤ 4095 := Nat.and_le_right
  omega

-- Sanity checks on the hash (the three 12-bit chunks of 32 bits).
example : cdvdSectorHash 0 0 = 0 := by rw [cdvdSectorHash_eq]; decide
example : cdvdSectorHash 16 0 = 16 := by rw [cdvdSectorHash_eq]; decide
example : cdvdSectorHash 16 3 = 19 := by rw [cdvdSectorHash_eq]; decide


/-- Aligning down never increases the address. -/
theorem blockAlign_le (sector : Nat) : blockAlign sector ≤ sector :=
  Nat.and_le_left

/-- Aligning an already aligned address is the identity. -/
theorem blockAlign_idem (sector : Nat) :
    blockAlign (blockAlign sector) = blockAlign sector := by
  unfold blockAlign
  rw [Nat.and_assoc]
  congr 1

/-- Closed form of the four-attempt retry loop: the first successful attempt
wins; after four failures it gives up with `false`. -/
theorem cdvdReadRetry_eq (ok : Nat → Bool) :
    cdvdReadRetry ok =
      if ok 0 then (1, true)
      else if ok 1 then (2, true)
      else if ok 2 then (3, true)
      else if ok 3 then (4, true)
      else (4, false) := by
  simp only [cdvdReadRetry, retryAux]
  rcases h0 : ok 0 <;> rcases h1 : ok 1 <;> rcases h2 : ok 2 <;> rcases h3 : ok 3 <;> simp [h0, h1, h2, h3]

/-- The retry loop never makes more than four attempts. -/
theorem cdvdReadRetry_le (ok : Nat → Bool) : (cdvdReadRetry ok).1 ≤ 4 := by
  rw [cdvdReadRetry_eq]
  rcases h0 : ok 0 <;> rcases h1 : ok 1 <;> rcases h2 : ok 2 <;> rcases h3 : ok 3 <;> simp [h0, h1, h2, h3]

/-- `n` autonomous worker passes starting with budget at least `n` read the
blocks `lastLba, lastLba + 16, …, lastLba + 16 * (n - 1)`, all in the stored
mode. -/
theorem prefetchTargets_eq (ok : Nat → Bool) (bd : Nat → Nat → Buf) :
    ∀ (n : Nat) (cache : CdvdCache Buf) (data0 : Buf) (s : PrefetchState),
      n ≤ s.left →
      prefetchTargets ok bd n cache data0 s =
        (List.range n).map (fun i => (s.lastLba + 16 * i, s.lastMode)) := by
  intro n
  induction n with
  | zero => intro cache data0 s _; simp [prefetchTargets]
  | succ n ih =>
    intro cache data0 s hn
    rcases s with ⟨lba, md, left⟩
    have hn' : n + 1 ≤ left := hn
    have hleft : left ≠ 0 := by omega
    simp only [prefetchTargets, cdvdThreadStep, hleft, if_true, ne_eq, not_false_iff]
    rw [ih _ _ ⟨lba + 16, md, left - 1⟩ (show n ≤ left - 1 by omega)]
    rw [List.range_succ_eq_map]
    simp [List.map_map, Function.comp]
    intro i hi
    omega

/-- The new-disc callback fires exactly when the reading equals the
`disc_has_changed` flag — i.e. exactly on a presence transition, the flag
recording that the previous check saw the media absent. -/
theorem cdvdUpdateDiscStatus_notified (strack etrack : Nat) (mediaType : Int)
    (ready : Bool) (s : DiscState) :
    (cdvdUpdateDiscStatus strack etrack mediaType ready s).notified =
      (ready == s.disc_has_changed) := by
  rcases s with ⟨c, t, tr⟩
  cases ready <;> cases c <;> simp [cdvdUpdateDiscStatus, cdvdRefreshData]

/-- After any status check the flag records the negation of the reading. -/
theorem cdvdUpdateDiscStatus_flag (strack etrack : Nat) (mediaType : Int)
    (ready : Bool) (s : DiscState) :
    (cdvdUpdateDiscStatus strack etrack mediaType ready s).state.disc_has_changed =
      !ready := by
  rcases s with ⟨c, t, tr⟩
  cases ready <;> cases c <;> simp [cdvdUpdateDiscStatus, cdvdRefreshData]

/-- Over any polling sequence, the callback fires exactly once per actual
presence transition. -/
theorem runDiscChecks_eq (strack etrack : Nat) (mediaType : Int)
    (rs : List Bool) :
    ∀ s : DiscState,
      runDiscChecks strack etrack mediaType rs s =
        countTransitions rs s.disc_has_changed := by
  induction rs with
  | nil => intro s; rfl
  | cons r rs ih =>
    intro s
    simp only [runDiscChecks, countTransitions]
    rw [ih, cdvdUpdateDiscStatus_notified, cdvdUpdateDiscStatus_flag]

/-- C3: for every (address, mode), `cdvdSectorHash` equals the fold that XORs
the three 12-bit chunks of the 32-bit address (low bits first, extracted by
masking with `2^12 - 1` and shifting right by 12, the bit counter running
32, 20, 8 and stopping at -4), XORs in the mode, and masks to the low
12 bits — so the result is always a slot index below `2^12 = 4096`; being a
Lean function, it is a pure deterministic function of (address, mode). -/
theorem claim_C3_hash_fold (lsn mode : Nat) :
    cdvdSectorHash lsn mode =
      ((((lsn &&& (2 ^ 12 - 1)) ^^^ ((lsn >>> 12) &&& (2 ^ 12 - 1))) ^^^
          ((lsn >>> 24) &&& (2 ^ 12 - 1))) ^^^ mode) &&& (2 ^ 12 - 1)
    ∧ cdvdSectorHash lsn mode < 2 ^ 12 := by
  constructor
  · rw [cdvdSectorHash_eq]
    norm_num
  · have h := cdvdSectorHash_lt lsn mode
    norm_num
    omega

/-- C4: after `cdvdCacheUpdate a m buf`, a `cdvdCacheFetch a m` returns a hit
with exactly the written payload, and still does after a further update that
lands in a different slot; and on any cache whose hashed slot carries a tag
other than (a, m), the fetch misses and returns the caller's buffer
untouched. -/
theorem claim_C4_cache_after_write {α : Type} (c : CdvdCache α) (a m : Nat)
    (buf out : α) (a' m' : Nat) (buf' : α)
    (hslot : cdvdSectorHash a' m' ≠ cdvdSectorHash a m)
    (c2 : CdvdCache α) (b bm : Nat) (out2 : α)
    (hmiss : (c2 (cdvdSectorHash b bm)).lsn ≠ (b : Int) ∨
      (c2 (cdvdSectorHash b bm)).mode ≠ (bm : Int)) :
    cdvdCacheFetch (cdvdCacheUpdate c a m buf) a m out = (true, buf)
    ∧ cdvdCacheFetch (cdvdCacheUpdate (cdvdCacheUpdate c a m buf) a' m' buf') a m out
        = (true, buf)
    ∧ cdvdCacheFetch c2 b bm out2 = (false, out2) := by
  refine ⟨?_, ?_, ?_⟩
  · simp [cdvdCacheFetch, cdvdCacheUpdate]
  · simp [cdvdCacheFetch, cdvdCacheUpdate, Ne.symm hslot]
  · rcases hmiss with h | h <;> simp [cdvdCacheFetch, h]

/-- Witness for C4 at concrete inputs: write payload 7 at (0, 0), overwrite
slot 1 with (1, 0) ↦ 9, fetch (0, 0) still hits with 7; fetching (2, 0) from
the all-invalid cache misses and returns the untouched buffer 5. -/
theorem claim_C4_witness :
    (cdvdSectorHash 1 0 ≠ cdvdSectorHash 0 0)
    ∧ ((emptyNatCache (cdvdSectorHash 2 0)).lsn ≠ (2 : Int) ∨
        (emptyNatCache (cdvdSectorHash 2 0)).mode ≠ (0 : Int))
    ∧ cdvdCacheFetch (cdvdCacheUpdate emptyNatCache 0 0 7) 0 0 5 = (true, 7)
    ∧ cdvdCacheFetch (cdvdCacheUpdate (cdvdCacheUpdate emptyNatCache 0 0 7) 1 0 9) 0 0 5
        = (true, 7)
    ∧ cdvdCacheFetch emptyNatCache 2 0 5 = (false, 5) := by
  have hslot : cdvdSectorHash 1 0 ≠ cdvdSectorHash 0 0 := by
    rw [cdvdSectorHash_eq, cdvdSectorHash_eq]
    decide
  have hmiss : (emptyNatCache (cdvdSectorHash 2 0)).lsn ≠ (2 : Int) ∨
      (emptyNatCache (cdvdSectorHash 2 0)).mode ≠ (0 : Int) := Or.inl (by decide)
  have h := claim_C4_cache_after_write emptyNatCache 0 0 7 5 1 0 9 hslot
    emptyNatCache 2 0 5 hmiss
  exact ⟨hslot, hmiss, h.1, h.2.1, h.2.2⟩

/-- C5: for a sector inside the fulfilled block at `lsn`, `cdvdGetSector`'s
byte offset is `2048 * (sector - lsn)` in mode 2048, `2352 * (sector - lsn)`
in mode 2352, and that raw offset plus 24 resp. 12 in modes 2328 and 2340; in
particular, with the block at 16, sector 18 gives `2352 * 2` in mode 2352 and
`2352 * 2 + 24` in mode 2328. -/
theorem claim_C5_getSector_offsets (lsn sector : Int)
    (h1 : lsn ≤ sector) (h2 : sector < lsn + 16) :
    cdvdGetSectorOffset lsn sector CDVD_MODE_2048 = 2048 * (sector - lsn)
    ∧ cdvdGetSectorOffset lsn sector CDVD_MODE_2352 = 2352 * (sector - lsn)
    ∧ cdvdGetSectorOffset lsn sector CDVD_MODE_2328 = 2352 * (sector - lsn) + 24
    ∧ cdvdGetSectorOffset lsn sector CDVD_MODE_2340 = 2352 * (sector - lsn) + 12
    ∧ cdvdGetSectorOffset 16 18 CDVD_MODE_2352 = 2352 * 2
    ∧ cdvdGetSectorOffset 16 18 CDVD_MODE_2328 = 2352 * 2 + 24 := by
  refine ⟨?_, ?_, ?_, ?_, by decide, by decide⟩ <;>
    simp [cdvdGetSectorOffset, CDVD_MODE_2048, CDVD_MODE_2352, CDVD_MODE_2328,
      CDVD_MODE_2340]

/-- Witness for C5 at the spec's concrete example: block at 16, sector 18. -/
theorem claim_C5_witness :
    ((16 : Int) ≤ 18 ∧ (18 : Int) < 16 + 16)
    ∧ cdvdGetSectorOffset 16 18 CDVD_MODE_2048 = 2048 * (18 - 16)
    ∧ cdvdGetSectorOffset 16 18 CDVD_MODE_2352 = 2352 * (18 - 16)
    ∧ cdvdGetSectorOffset 16 18 CDVD_MODE_2328 = 2352 * (18 - 16) + 24
    ∧ cdvdGetSectorOffset 16 18 CDVD_MODE_2340 = 2352 * (18 - 16) + 12 := by
  have h := claim_C5_getSector_offsets 16 18 (by decide) (by decide)
  exact ⟨⟨by decide, by decide⟩, h.1, h.2.1, h.2.2.1, h.2.2.2.1⟩

/-- C6 (amended): for every in-range address (`sector < sectorCount`),
`cdvdRequestSector` behaves identically — same status, same pending slot and
cache state, same worker wake-up — to the call on the block-aligned address
`sector &&& ~15`.  (As originally stated, without the in-range restriction,
the claim fails: the out-of-range check runs on the unaligned address, see the
counterexample.) -/
theorem claim_C6_request_align {α : Type} (cnt : Nat) (s : ReqState α)
    (sector mode : Nat) (h : sector < cnt) :
    cdvdRequestSector cnt s sector mode =
      cdvdRequestSector cnt s (blockAlign sector) mode := by
  have halign : ¬ blockAlign sector ≥ cnt := by
    have := blockAlign_le sector
    omega
  have hs : ¬ sector ≥ cnt := by omega
  simp only [cdvdRequestSector, hs, halign, if_false, blockAlign_idem]

/-- Witness for C6 (amended) at sector 17 against sector count 32: the call on
17 equals the call on the aligned address 16. -/
theorem claim_C6_witness :
    17 < 32
    ∧ cdvdRequestSector 32 reqState0 17 CDVD_MODE_2048 =
        cdvdRequestSector 32 reqState0 (blockAlign 17) CDVD_MODE_2048 :=
  ⟨by decide, claim_C6_request_align 32 reqState0 17 CDVD_MODE_2048 (by decide)⟩

/-- Counterexample to C6 as stated: with a backend reporting 17 sectors,
`cdvdRequestSector 17` is rejected (status -1, nothing armed) because the
range check runs on the unaligned address, while `cdvdRequestSector 16` — the
aligned address — is accepted with status 0; the two calls do not behave
identically for every address. -/
theorem claim_C6_counterexample :
    cdvdRequestSector 17 reqState0 17 CDVD_MODE_2048 ≠
      cdvdRequestSector 17 reqState0 (17 &&& 0xFFFFFFF0) CDVD_MODE_2048 := by
  intro hEq
  have h1 : (cdvdRequestSector 17 reqState0 17 CDVD_MODE_2048).1 = -1 := by
    simp [cdvdRequestSector]
  have h2 : (cdvdRequestSector 17 reqState0 (17 &&& 0xFFFFFFF0) CDVD_MODE_2048).1 = 0 := by
    have : (17 &&& 0xFFFFFFF0) = 16 := by decide
    rw [this]
    simp [cdvdRequestSector, blockAlign, cdvdCacheFetch, reqState0, emptyNatCache]
  rw [hEq, h2] at h1
  exact absurd h1 (by decide)

/-- C8: an out-of-range request (`sector ≥ sectorCount`) is rejected
immediately by both paths: `cdvdRequestSector` returns -1 with the request
slot, cache and pending flag untouched and without waking the worker, and
`cdvdDirectReadSector` returns status -1 with the cache unchanged and zero
backend read attempts. -/
theorem claim_C8_range_rejection {α : Type} (cnt : Nat) (s : ReqState α)
    (sector mode : Nat) (h1 : sector ≥ cnt)
    (ok : Nat → Bool) (blockData : Buf) (cache : CdvdCache Buf)
    (data0 outBuf : Buf) (first mode2 : Nat) (h2 : first ≥ cnt) :
    cdvdRequestSector cnt s sector mode = (-1, s, false)
    ∧ cdvdDirectReadSector cnt ok blockData cache data0 outBuf first mode2 =
        ⟨-1, cache, 0, data0, outBuf⟩ := by
  constructor
  · simp [cdvdRequestSector, h1]
  · simp [cdvdDirectReadSector, h2]

/-- Witness for C8: sector 4 and first 5 against a 4-sector backend. -/
theorem claim_C8_witness :
    (4 ≥ 4 ∧ 5 ≥ 4)
    ∧ cdvdRequestSector 4 reqState0 4 CDVD_MODE_2048 = (-1, reqState0, false)
    ∧ cdvdDirectReadSector 4 reliableBackend zeroBuf emptyBufCache zeroBuf zeroBuf
        5 CDVD_MODE_2048 = ⟨-1, emptyBufCache, 0, zeroBuf, zeroBuf⟩ := by
  have h := claim_C8_range_rejection 4 reqState0 4 CDVD_MODE_2048 (by decide)
    reliableBackend zeroBuf emptyBufCache zeroBuf zeroBuf 5 CDVD_MODE_2048 (by decide)
  exact ⟨⟨by decide, by decide⟩, h.1, h.2⟩

/-- C7: both read paths attempt the backend read at most four times and accept
the first success — a backend failing on attempts 0–2 and succeeding on
attempt 3 yields the successfully read block — and when all four attempts
fail the operation still completes: the worker updates the cache with the
buffer's existing contents and fulfils (clears) the pending request, and the
direct path still returns status 0. -/
theorem claim_C7_retry_bound (okAny ok3 okFail okJ : Nat → Bool) (j : Nat)
    (h3 : ∀ t, t < 3 → ok3 t = false) (h3s : ok3 3 = true)
    (hf : ∀ t, t < 4 → okFail t = false)
    (hj : j < 4) (hjs : okJ j = true) (hjf : ∀ t, t < j → okJ t = false)
    (cnt : Nat) (bd : Buf) (blockData : Nat → Nat → Buf) (cache : CdvdCache Buf)
    (data0 outBuf : Buf) (first mode lsn md : Nat) (h1 : first < cnt) :
    (cdvdReadRetry okAny).1 ≤ 4
    ∧ cdvdReadRetry okJ = (j + 1, true)
    ∧ cdvdReadRetry ok3 = (4, true)
    ∧ cdvdWorkerRead ok3 bd data0 = (4, true, bd)
    ∧ cdvdReadRetry okFail = (4, false)
    ∧ cdvdThreadStep okFail blockData (some (lsn, md)) cache data0 ⟨0, 0, 0⟩ =
        ⟨cdvdCacheUpdate cache lsn md data0, data0, ⟨lsn, md, 16⟩,
          some (lsn, md), 4, true⟩
    ∧ (cdvdDirectReadSector cnt okFail bd cache data0 outBuf first mode).status
        = 0 := by
  have hf0 := hf 0 (by norm_num)
  have hf1 := hf 1 (by norm_num)
  have hf2 := hf 2 (by norm_num)
  have hf3 := hf 3 (by norm_num)
  refine ⟨cdvdReadRetry_le okAny, ?_, ?_, ?_, ?_, ?_, ?_⟩
  · interval_cases j
    · simp [cdvdReadRetry_eq, hjs]
    · simp [cdvdReadRetry_eq, hjs, hjf 0 (by norm_num)]
    · simp [cdvdReadRetry_eq, hjs, hjf 0 (by norm_num), hjf 1 (by norm_num)]
    · simp [cdvdReadRetry_eq, hjs, hjf 0 (by norm_num), hjf 1 (by norm_num),
        hjf 2 (by norm_num)]
  · simp [cdvdReadRetry_eq, h3 0 (by norm_num), h3 1 (by norm_num),
      h3 2 (by norm_num), h3s]
  · simp [cdvdWorkerRead, cdvdReadRetry_eq, h3 0 (by norm_num), h3 1 (by norm_num),
      h3 2 (by norm_num), h3s]
  · simp [cdvdReadRetry_eq, hf0, hf1, hf2, hf3]
  · simp [cdvdThreadStep, cdvdWorkerRead, cdvdReadRetry_eq, hf0, hf1, hf2, hf3,
      prefetch_max_blocks]
  · simp [cdvdDirectReadSector, show ¬ first ≥ cnt by omega]

/-- Witness for C7: a backend failing exactly on attempts 0–2 and one failing
always, at concrete inputs. -/
theorem claim_C7_witness :
    (cdvdReadRetry reliableBackend).1 ≤ 4
    ∧ cdvdReadRetry failThriceBackend = (4, true)
    ∧ cdvdWorkerRead failThriceBackend zeroBuf zeroBuf = (4, true, zeroBuf)
    ∧ cdvdReadRetry failingBackend = (4, false)
    ∧ cdvdThreadStep failingBackend zeroBlocks (some (0, 0)) emptyBufCache zeroBuf
        ⟨0, 0, 0⟩ =
        ⟨cdvdCacheUpdate emptyBufCache 0 0 zeroBuf, zeroBuf, ⟨0, 0, 16⟩,
          some (0, 0), 4, true⟩
    ∧ (cdvdDirectReadSector 1 failingBackend zeroBuf emptyBufCache zeroBuf zeroBuf
        0 CDVD_MODE_2048).status = 0 := by
  have h := claim_C7_retry_bound reliableBackend failThriceBackend failingBackend
    failThriceBackend 3
    (by intro t ht; interval_cases t <;> decide) (by decide)
    (fun t _ => rfl)
    (by decide) (by decide) (by intro t ht; interval_cases t <;> decide)
    1 zeroBuf zeroBlocks emptyBufCache zeroBuf zeroBuf 0 CDVD_MODE_2048 0 0
    (by decide)
  exact ⟨h.1, h.2.2.1, h.2.2.2.1, h.2.2.2.2.1, h.2.2.2.2.2.1, h.2.2.2.2.2.2⟩

/-- C9: the new-disc callback is invoked exactly on presence transitions —
its firing is equivalent to the reading differing from the last recorded
presence (the `disc_has_changed` flag records that the previous check saw the
media absent), the flag afterwards always records the new reading, a
present-to-absent transition sets the changed flag, no-disc type and open
tray and notifies, an absent-to-present transition clears the flag, refreshes
the disc data and notifies, a repeated reading changes nothing and never
notifies (in particular a second check with the same reading never fires),
and over any polling sequence the number of callback invocations equals the
number of actual transitions. -/
theorem claim_C9_disc_change (strack etrack : Nat) (mediaType : Int)
    (ready : Bool) (s : DiscState) (t tr : Nat) (rs : List Bool) :
    (cdvdUpdateDiscStatus strack etrack mediaType ready s).notified
        = (ready == s.disc_has_changed)
    ∧ (cdvdUpdateDiscStatus strack etrack mediaType ready s).state.disc_has_changed
        = !ready
    ∧ cdvdUpdateDiscStatus strack etrack mediaType false ⟨false, t, tr⟩ =
        ⟨⟨true, CDVD_TYPE_NODISC, CDVD_TRAY_OPEN⟩, true, false, true⟩
    ∧ cdvdUpdateDiscStatus strack etrack mediaType false ⟨true, t, tr⟩ =
        ⟨⟨true, t, tr⟩, false, false, true⟩
    ∧ cdvdUpdateDiscStatus strack etrack mediaType true ⟨true, t, tr⟩ =
        ⟨cdvdRefreshData strack etrack mediaType
            ⟨false, CDVD_TYPE_NODISC, CDVD_TRAY_CLOSE⟩, true, true, false⟩
    ∧ (cdvdUpdateDiscStatus strack etrack mediaType true
        ⟨true, t, tr⟩).state.disc_has_changed = false
    ∧ cdvdUpdateDiscStatus strack etrack mediaType true ⟨false, t, tr⟩ =
        ⟨⟨false, t, tr⟩, false, false, false⟩
    ∧ (cdvdUpdateDiscStatus strack etrack mediaType ready
        (cdvdUpdateDiscStatus strack etrack mediaType ready s).state).notified
        = false
    ∧ runDiscChecks strack etrack mediaType rs s =
        countTransitions rs s.disc_has_changed := by
  refine ⟨cdvdUpdateDiscStatus_notified _ _ _ _ _,
    cdvdUpdateDiscStatus_flag _ _ _ _ _, ?_, ?_, ?_, ?_, ?_, ?_,
    runDiscChecks_eq _ _ _ _ _⟩
  · simp [cdvdUpdateDiscStatus]
  · simp [cdvdUpdateDiscStatus]
  · simp [cdvdUpdateDiscStatus]
  · simp [cdvdUpdateDiscStatus, cdvdRefreshData]
  · simp [cdvdUpdateDiscStatus]
  · rw [cdvdUpdateDiscStatus_notified, cdvdUpdateDiscStatus_flag]
    cases ready <;> rfl

/-- C1 (amended): after fulfilling an on-demand request for block address `A`,
the prefetch state holds the just-served address/mode and the full budget 16,
and each autonomous worker pass targets the stored `prefetch_last_lba` before
advancing it by 16 and decrementing the budget, updating the cache at the
targeted block — so the up-to-16 autonomous reads following fulfilment target
`A, A + 16, …` (the first re-reads the just-served block), not `A + 16`
onwards as originally stated (see the counterexample). -/
theorem claim_C1_prefetch_continuity (ok : Nat → Bool) (bd : Nat → Nat → Buf)
    (cache : CdvdCache Buf) (data0 : Buf) (s s' : PrefetchState) (A m : Nat)
    (hl : s'.left ≠ 0) (n : Nat) (hn : n ≤ 16) :
    (cdvdThreadStep ok bd (some (A, m)) cache data0 s).state =
        ⟨A, m, prefetch_max_blocks⟩
    ∧ (cdvdThreadStep ok bd none cache data0 s').target =
        some (s'.lastLba, s'.lastMode)
    ∧ (cdvdThreadStep ok bd none cache data0 s').state =
        ⟨s'.lastLba + 16, s'.lastMode, s'.left - 1⟩
    ∧ (cdvdThreadStep ok bd none cache data0 s').cache =
        cdvdCacheUpdate cache s'.lastLba s'.lastMode
          (cdvdThreadStep ok bd none cache data0 s').infoData
    ∧ prefetchTargets ok bd n
        (cdvdThreadStep ok bd (some (A, m)) cache data0 s).cache
        (cdvdThreadStep ok bd (some (A, m)) cache data0 s).infoData
        (cdvdThreadStep ok bd (some (A, m)) cache data0 s).state =
        (List.range n).map (fun i => (A + 16 * i, m)) := by
  refine ⟨rfl, ?_, ?_, ?_, ?_⟩
  · simp [cdvdThreadStep, hl]
  · simp [cdvdThreadStep, hl]
  · simp [cdvdThreadStep, hl]
  · exact prefetchTargets_eq ok bd n _ _ ⟨A, m, prefetch_max_blocks⟩ hn

/-- Witness for C1 (amended): fulfilment of block 0 in mode 0 followed by all
16 autonomous passes, from an idle prior state. -/
theorem claim_C1_witness :
    ((⟨0, 0, 1⟩ : PrefetchState).left ≠ 0 ∧ 16 ≤ 16)
    ∧ (cdvdThreadStep reliableBackend zeroBlocks (some (0, 0)) emptyBufCache
        zeroBuf ⟨0, 0, 0⟩).state = ⟨0, 0, prefetch_max_blocks⟩
    ∧ prefetchTargets reliableBackend zeroBlocks 16
        (cdvdThreadStep reliableBackend zeroBlocks (some (0, 0)) emptyBufCache
          zeroBuf ⟨0, 0, 0⟩).cache
        (cdvdThreadStep reliableBackend zeroBlocks (some (0, 0)) emptyBufCache
          zeroBuf ⟨0, 0, 0⟩).infoData
        (cdvdThreadStep reliableBackend zeroBlocks (some (0, 0)) emptyBufCache
          zeroBuf ⟨0, 0, 0⟩).state =
        (List.range 16).map (fun i => (0 + 16 * i, 0)) := by
  have h := claim_C1_prefetch_continuity reliableBackend zeroBlocks emptyBufCache
    zeroBuf ⟨0, 0, 0⟩ ⟨0, 0, 1⟩ 0 0 (by decide) 16 (by decide)
  exact ⟨⟨by decide, by decide⟩, h.1, h.2.2.2.2⟩

/-- Counterexample to C1 as stated: after fulfilling a request for block 0,
the 16 autonomous reads target 0, 16, …, 240 — the first one re-reads the
just-served block — and not 16, 32, …, 256 as the claim's first clause
("A+16, A+32, …") demands. -/
theorem claim_C1_counterexample :
    prefetchTargets reliableBackend zeroBlocks 16
        (cdvdThreadStep reliableBackend zeroBlocks (some (0, 0)) emptyBufCache
          zeroBuf ⟨0, 0, 0⟩).cache
        (cdvdThreadStep reliableBackend zeroBlocks (some (0, 0)) emptyBufCache
          zeroBuf ⟨0, 0, 0⟩).infoData
        (cdvdThreadStep reliableBackend zeroBlocks (some (0, 0)) emptyBufCache
          zeroBuf ⟨0, 0, 0⟩).state ≠
      (List.range 16).map (fun i => (0 + 16 * (i + 1), 0)) := by
  have hs : (cdvdThreadStep reliableBackend zeroBlocks (some (0, 0)) emptyBufCache
      zeroBuf ⟨0, 0, 0⟩).state = ⟨0, 0, prefetch_max_blocks⟩ := rfl
  rw [hs, prefetchTargets_eq reliableBackend zeroBlocks 16 _ _
    ⟨0, 0, prefetch_max_blocks⟩ (by decide)]
  decide

/-- C2: in `cdvdDirectReadSector` the mode-2352 (default) branch copies its
2352 bytes starting at scratch offset `2352 * (first - (first & ~15)) + 12`,
not at the raw-sector offset `2352 * (first - (first & ~15))` that the claim
(and `cdvdGetSector`, and the spec's "full raw sector including all headers")
prescribe: the `switch`'s default case does `memcpy(buffer, bfr + 12, 2352)`,
duplicating the mode-2340 offset.  Evaluated at the failing input
`first = 15`. -/
theorem claim_C2_direct_2352_bug (first : Nat) :
    drsSrcOffset first CDVD_MODE_2352 = 2352 * (first - blockAlign first) + 12
    ∧ drsCopyLen CDVD_MODE_2352 = 2352
    ∧ drsSrcOffset 15 CDVD_MODE_2352 = 35292
    ∧ 2352 * (15 - blockAlign 15) = 35280 := by
  refine ⟨?_, by decide, by decide, by decide⟩
  simp [drsSrcOffset, CDVD_MODE_2352, CDVD_MODE_2048, CDVD_MODE_2328,
    CDVD_MODE_2340]

/-- C10: the mode-2352 copy of `cdvdDirectReadSector` reads outside the
16*2352-byte scratch buffer at the largest in-block offset: at `first = 15`
the source range starts at byte 35292 and extends to byte 37643, crossing the
buffer's 37632-byte bound by 12 bytes (consequence of the default branch's
`bfr + 12`).  The concrete run below shows the embedded function's output
byte 2351 coming from scratch index 37643 ≥ 16 * 2352. -/
theorem claim_C10_direct_read_oob :
    drsSrcOffset 15 CDVD_MODE_2352 + drsCopyLen CDVD_MODE_2352 = 37644
    ∧ 16 * 2352 < drsSrcOffset 15 CDVD_MODE_2352 + drsCopyLen CDVD_MODE_2352
    ∧ (cdvdDirectReadSector 16 reliableBackend idxBuf emptyBufCache zeroBuf
        zeroBuf 15 CDVD_MODE_2352).out 2351 = idxBuf 37643
    ∧ 16 * 2352 ≤ 37643 := by
  refine ⟨by decide, by decide, ?_, by decide⟩
  simp [cdvdDirectReadSector, cdvdCacheFetch, cdvdWorkerRead, cdvdReadRetry_eq,
    emptyBufCache, reliableBackend, drsSrcOffset, drsCopyLen, CDVD_MODE_2352,
    CDVD_MODE_2048, CDVD_MODE_2328, CDVD_MODE_2340, blockAlign, idxBuf,
    show (15 &&& 4294967280) = 0 by decide]
